import Mathlib

/-!
Shallow embedding of the preDuckit lambda handlers:
  - ExternalAPIFetcher.py  (MatchQueryHandler)
  - SmartContractInteractor.py  (ContractInvoker)
  - lambda_function.py  (ChatRelay)
External collaborators (HTTP responses, the chain RPC, the chat platform,
the hosted agent) are modelled as explicit inputs; the outbound calls a
handler makes are recorded in an effect trace.
-/

set_option maxHeartbeats 1000000

namespace PyJson

/-- JSON values as produced by Python json.loads; numbers are restricted to
integers, which is all the handlers in this repository exchange. -/
inductive JVal where
  | null : JVal
  | boolean : Bool → JVal
  | num : Int → JVal
  | str : String → JVal
  | arr : List JVal → JVal
  | obj : List (String × JVal) → JVal

def isWs (c : Char) : Bool := c = ' ' || c = '\n' || c = '\t' || c = '\r'

def skipWs : List Char → List Char
  | [] => []
  | c :: cs => if isWs c then skipWs cs else c :: cs

/-- Decode a JSON string body after the opening quote: returns the decoded
characters and the remainder after the closing quote. -/
def parseStrAux : List Char → Option (List Char × List Char)
  | [] => none
  | '\\' :: e :: cs =>
    let dec := if e = 'n' then '\n' else if e = 't' then '\t' else e
    (parseStrAux cs).map (fun p => (dec :: p.1, p.2))
  | '"' :: cs => some ([], cs)
  | c :: cs => (parseStrAux cs).map (fun p => (c :: p.1, p.2))

def takeDigits : List Char → (List Char × List Char)
  | [] => ([], [])
  | c :: cs =>
    if c.isDigit then
      let p := takeDigits cs
      (c :: p.1, p.2)
    else ([], c :: cs)

def digitsVal (ds : List Char) : Nat := ds.foldl (fun a c => a * 10 + (c.toNat - 48)) 0

mutual

/-- Fuel-indexed recursive-descent JSON parser (model of Python json.loads). -/
def parseVal : Nat → List Char → Option (JVal × List Char)
  | 0, _ => none
  | fuel + 1, cs =>
    match skipWs cs with
    | 'n' :: 'u' :: 'l' :: 'l' :: rest => some (.null, rest)
    | 't' :: 'r' :: 'u' :: 'e' :: rest => some (.boolean true, rest)
    | 'f' :: 'a' :: 'l' :: 's' :: 'e' :: rest => some (.boolean false, rest)
    | '"' :: rest => (parseStrAux rest).map (fun p => (.str ⟨p.1⟩, p.2))
    | '[' :: rest =>
      (match skipWs rest with
       | ']' :: rest2 => some (.arr [], rest2)
       | rest2 => (parseElems fuel rest2).map (fun p => (.arr p.1, p.2)))
    | '\x7b' :: rest =>
      (match skipWs rest with
       | '\x7d' :: rest2 => some (.obj [], rest2)
       | rest2 => (parseMembers fuel rest2).map (fun p => (.obj p.1, p.2)))
    | '-' :: rest =>
      (match takeDigits rest with
       | ([], _) => none
       | (ds, rest2) => some (.num (-(digitsVal ds : Int)), rest2))
    | c :: rest =>
      if c.isDigit then
        (match takeDigits (c :: rest) with
         | ([], _) => none
         | (ds, rest2) => some (.num (digitsVal ds), rest2))
      else none
    | [] => none

def parseElems : Nat → List Char → Option (List JVal × List Char)
  | 0, _ => none
  | fuel + 1, cs =>
    (parseVal fuel cs).bind fun p =>
      match skipWs p.2 with
      | ',' :: rest2 => (parseElems fuel rest2).map (fun q => (p.1 :: q.1, q.2))
      | ']' :: rest2 => some ([p.1], rest2)
      | _ => none

def parseMembers : Nat → List Char → Option (List (String × JVal) × List Char)
  | 0, _ => none
  | fuel + 1, cs =>
    match skipWs cs with
    | '"' :: rest =>
      (parseStrAux rest).bind fun kp =>
        match skipWs kp.2 with
        | ':' :: rest3 =>
          (parseVal fuel rest3).bind fun vp =>
            match skipWs vp.2 with
            | ',' :: rest5 => (parseMembers fuel rest5).map (fun q => ((⟨kp.1⟩, vp.1) :: q.1, q.2))
            | '\x7d' :: rest5 => some ([(⟨kp.1⟩, vp.1)], rest5)
            | _ => none
        | _ => none
    | _ => none

end

/-- Model of Python json.loads: parse the whole string, rejecting trailing input. -/
def loads (s : String) : Option JVal :=
  match parseVal (2 * s.data.length + 4) s.data with
  | some (v, rest) => if (skipWs rest).isEmpty then some v else none
  | none => none

/-- Lookup in a parsed JSON object (Python dict access). -/
def objGet? (kvs : List (String × JVal)) (k : String) : Option JVal :=
  (kvs.find? (fun p => p.1 == k)).map (fun p => p.2)

/-- Python truthiness of a JSON value. -/
def truthy : JVal → Bool
  | .null => false
  | .boolean b => b
  | .num n => !(n == 0)
  | .str s => !s.isEmpty
  | .arr xs => !xs.isEmpty
  | .obj kvs => !kvs.isEmpty

end PyJson

namespace ExternalAPIFetcher

/-! Embedding of ExternalAPIFetcher.py (MatchQueryHandler).
The clock (datetime.utcnow) is a civil-date input; datetime + timedelta(days=n)
is day-by-day civil-date stepping; strftime / strptime for the format
YYYY-MM-DD are implemented over the characters of the string. -/

structure Date where
  y : Nat
  m : Nat
  d : Nat
deriving DecidableEq

def isLeap (y : Nat) : Bool := (y % 4 == 0 && y % 100 != 0) || y % 400 == 0

def daysInMonth (y m : Nat) : Nat :=
  if m == 2 then (if isLeap y then 29 else 28)
  else if m == 4 || m == 6 || m == 9 || m == 11 then 30
  else 31

def nextDay (dt : Date) : Date :=
  if dt.d < daysInMonth dt.y dt.m then ⟨dt.y, dt.m, dt.d + 1⟩
  else if dt.m < 12 then ⟨dt.y, dt.m + 1, 1⟩
  else ⟨dt.y + 1, 1, 1⟩

def prevDay (dt : Date) : Date :=
  if 1 < dt.d then ⟨dt.y, dt.m, dt.d - 1⟩
  else if 1 < dt.m then ⟨dt.y, dt.m - 1, daysInMonth dt.y (dt.m - 1)⟩
  else ⟨dt.y - 1, 12, 31⟩

/-- datetime + timedelta(days=n). -/
def addDays (dt : Date) : Nat → Date
  | 0 => dt
  | n + 1 => nextDay (addDays dt n)

/-- datetime - timedelta(days=n). -/
def subDays (dt : Date) : Nat → Date
  | 0 => dt
  | n + 1 => prevDay (subDays dt n)

def digitChar (n : Nat) : Char := Char.ofNat (48 + n % 10)

def fmt4 (n : Nat) : List Char :=
  [digitChar (n / 1000), digitChar (n / 100), digitChar (n / 10), digitChar n]

def fmt2 (n : Nat) : List Char := [digitChar (n / 10), digitChar n]

/-- strftime of a date with format YYYY-MM-DD (four-digit years). -/
def strftimeDate (dt : Date) : String :=
  ⟨fmt4 dt.y ++ '-' :: fmt2 dt.m ++ '-' :: fmt2 dt.d⟩

def splitDash : List Char → List (List Char)
  | [] => [[]]
  | c :: cs =>
    if c = '-' then [] :: splitDash cs
    else
      match splitDash cs with
      | [] => [[c]]
      | g :: gs => (c :: g) :: gs

def allDigits (cs : List Char) : Bool := cs.all Char.isDigit

/-- Model of datetime.strptime(s, "%Y-%m-%d"): the year is exactly four digits,
month and day are one or two digits, and the day must exist in the month. -/
def parseDateStr (s : String) : Option Date :=
  match splitDash s.data with
  | [ys, ms, ds] =>
    if allDigits ys && allDigits ms && allDigits ds && ys.length == 4
        && (ms.length == 1 || ms.length == 2) && (ds.length == 1 || ds.length == 2) then
      let y := PyJson.digitsVal ys
      let m := PyJson.digitsVal ms
      let d := PyJson.digitsVal ds
      if 1 ≤ y && 1 ≤ m && m ≤ 12 && 1 ≤ d && d ≤ daysInMonth y m then some ⟨y, m, d⟩
      else none
    else none
  | _ => none

/-- event.get(k): the inbound event is a dict with string values. -/
def getv (ev : List (String × String)) (k : String) : Option String :=
  (ev.find? (fun p => p.1 == k)).map (fun p => p.2)

/-- One entry of the competition roster (fields the code reads: name, id). -/
structure TeamEntry where
  name : String
  id : Nat
deriving DecidableEq

/-- Response to the roster lookup GET /competitions/PL/teams;
teams is response.json().get(\x27teams\x27, []). -/
structure TeamsResp where
  status_code : Nat
  text : String
  teams : List TeamEntry

structure FullTime where
  home : Int
  away : Int
deriving DecidableEq

/-- The score object of an upstream match; fullTime and winner record whether
the corresponding dict key is present, and winner distinguishes a JSON null
(some none) from a string code (some (some c)). -/
structure ScoreJson where
  fullTime : Option FullTime
  winner : Option (Option String)
deriving DecidableEq

/-- One upstream match as the formatting loop reads it; homeTeam / awayTeam
hold the nested team names. -/
structure MatchJson where
  utcDate : String
  venue : Option String
  homeTeam : String
  awayTeam : String
  status : String
  score : Option ScoreJson
deriving DecidableEq

/-- Response to a matches fetch; matches is response.json().get(\x27matches\x27, []). -/
structure HttpResp where
  status_code : Nat
  text : String
  matchesList : List MatchJson

/-- The external world: the roster response, and the response to the k-th
fetch attempt of the retry loop. -/
structure World where
  teamsResp : TeamsResp
  matchResp : Nat → HttpResp

/-- The outbound calls and sleeps the handler performs, in order. -/
inductive Effect where
  | getTeams
  | getMatches (url status dateFrom dateTo : String)
  | sleep (secs : Nat)
deriving DecidableEq

structure MatchData where
  match_date : String
  venue : String
  home_team : String
  away_team : String
  score : Option (Int × Int)
  winner : Option String
deriving DecidableEq

inductive Body where
  | errorMsg (msg : String)
  | matchList (ms : List MatchData)
deriving DecidableEq

structure HandlerResult where
  statusCode : Nat
  body : Body
deriving DecidableEq

inductive PyErr where
  | keyError (k : String)
deriving DecidableEq

def keyErrMsg : PyErr → String
  | .keyError k => k

/-- ASCII model of Python str.lower (team names in the roster are ASCII). -/
def lowerChar (c : Char) : Char :=
  if 'A' ≤ c && c ≤ 'Z' then Char.ofNat (c.toNat + 32) else c

def pyLower (s : String) : String := ⟨s.data.map lowerChar⟩

inductive TeamLookup where
  | found (id : Nat)
  | notFound (msg : String)
  | fetchFailed (msg : String)
deriving DecidableEq

/-- get_team_id: raise on a non-200 roster response, else return the id of the
first roster entry whose lowercased name equals the lowercased query, else
raise ValueError. -/
def get_team_id (resp : TeamsResp) (team_name : String) : TeamLookup :=
  if !(resp.status_code == 200) then .fetchFailed ("Failed to fetch teams: " ++ resp.text)
  else
    match resp.teams.find? (fun t => pyLower t.name == pyLower team_name) with
    | some t => .found t.id
    | none => .notFound ("Team " ++ team_name ++ " not found in EPL.")

/-- The winner string computed for a FINISHED match from the three-way code
(none is a JSON null winner). -/
def winnerField (m : MatchJson) (code : Option String) : String :=
  if code == some "HOME_TEAM" then m.homeTeam
  else if code == some "AWAY_TEAM" then m.awayTeam
  else if code == some "DRAW" then "draw"
  else "unknown"

/-- The body of the formatting loop for one match; dict bracket access on a
missing key raises KeyError. -/
def formatMatch (m : MatchJson) : Except PyErr MatchData :=
  if m.status == "FINISHED" then
    match m.score with
    | none => .error (.keyError "score")
    | some sc =>
      match sc.fullTime with
      | none => .error (.keyError "fullTime")
      | some ft =>
        match sc.winner with
        | none => .error (.keyError "winner")
        | some code =>
          .ok { match_date := m.utcDate, venue := m.venue.getD "Unknown",
                home_team := m.homeTeam, away_team := m.awayTeam,
                score := some (ft.home, ft.away),
                winner := some (winnerField m code) }
  else
    .ok { match_date := m.utcDate, venue := m.venue.getD "Unknown",
          home_team := m.homeTeam, away_team := m.awayTeam,
          score := none, winner := none }

inductive LoopExit where
  | success (r : HttpResp)
  | apiError (code : Nat) (text : String)
  | exhausted

/-- The retry loop: for attempt in range(3), fetch; on 429 sleep 2 ** attempt
seconds and continue; on any other non-200 return the upstream error; on 200
break; the for-else (all attempts rate-limited) yields exhausted. -/
def runAttempts (w : World) (url status dateFrom dateTo : String) :
    Nat → Nat → List Effect × LoopExit
  | _, 0 => ([], .exhausted)
  | attempt, fuel + 1 =>
    let r := w.matchResp attempt
    let fe := Effect.getMatches url status dateFrom dateTo
    if r.status_code == 429 then
      let rest := runAttempts w url status dateFrom dateTo (attempt + 1) fuel
      (fe :: Effect.sleep (2 ^ attempt) :: rest.1, rest.2)
    else if !(r.status_code == 200) then ([fe], .apiError r.status_code r.text)
    else ([fe], .success r)

def statusOf (ev : List (String × String)) : String := (getv ev "status").getD "SCHEDULED"

/-- The date_from the handler uses: the explicit value if present, else the
status-dependent default. -/
def dateFromOf (ev : List (String × String)) (cur : Date) : String :=
  if statusOf ev == "SCHEDULED" then (getv ev "date_from").getD (strftimeDate (addDays cur 5))
  else (getv ev "date_from").getD (strftimeDate (subDays cur 7))

/-- The date_to the handler uses: the explicit value if present, else the
status-dependent default. -/
def dateToOf (ev : List (String × String)) (cur : Date) : String :=
  if statusOf ev == "SCHEDULED" then (getv ev "date_to").getD (strftimeDate (addDays cur 5))
  else (getv ev "date_to").getD (strftimeDate cur)

def BASE_URL : String := "https://api.football-data.org/v4"

def COMPETITION_ID : String := "PL"

def compMatchesUrl : String := BASE_URL ++ "/competitions/" ++ COMPETITION_ID ++ "/matches"

def teamMatchesUrl (id : Nat) : String := BASE_URL ++ "/teams/" ++ toString id ++ "/matches"

/-- Fetch with retry and format; pre is the trace accumulated so far. -/
def fetchAndFormat (w : World) (url status dateFrom dateTo : String) (pre : List Effect) :
    List Effect × HandlerResult :=
  let lr := runAttempts w url status dateFrom dateTo 0 3
  let tr := pre ++ lr.1
  match lr.2 with
  | .exhausted => (tr, ⟨429, .errorMsg "API rate limit exceeded after retries"⟩)
  | .apiError code text => (tr, ⟨code, .errorMsg ("API request failed: " ++ text)⟩)
  | .success r =>
    match r.matchesList.mapM formatMatch with
    | .error e => (tr, ⟨500, .errorMsg ("Internal server error: " ++ keyErrMsg e)⟩)
    | .ok l => (tr, ⟨200, .matchList l⟩)

/-- lambda_handler of ExternalAPIFetcher.py: returns the effect trace and the
response dict (statusCode plus json body). -/
def lambda_handler (w : World) (cur : Date) (event : List (String × String)) :
    List Effect × HandlerResult :=
  let status := statusOf event
  if !(status == "SCHEDULED" || status == "FINISHED") then
    ([], ⟨400, .errorMsg "Invalid status. Must be SCHEDULED or FINISHED"⟩)
  else
    let date_from := dateFromOf event cur
    let date_to := dateToOf event cur
    if (parseDateStr date_from).isNone || (parseDateStr date_to).isNone then
      ([], ⟨400, .errorMsg "Invalid date format. Use YYYY-MM-DD"⟩)
    else if event.isEmpty then
      ([], ⟨200, .matchList []⟩)
    else
      match getv event "team" with
      | some t =>
        if !t.isEmpty then
          match get_team_id w.teamsResp t with
          | .notFound msg => ([.getTeams], ⟨404, .errorMsg msg⟩)
          | .fetchFailed msg =>
            ([.getTeams], ⟨500, .errorMsg ("Failed to fetch team ID: " ++ msg)⟩)
          | .found i => fetchAndFormat w (teamMatchesUrl i) status date_from date_to [.getTeams]
        else fetchAndFormat w compMatchesUrl status date_from date_to []
      | none => fetchAndFormat w compMatchesUrl status date_from date_to []

/-- Number of fetch attempts recorded in a trace. -/
def countFetches (tr : List Effect) : Nat :=
  (tr.filter (fun e => match e with | .getMatches _ _ _ _ => true | _ => false)).length

end ExternalAPIFetcher

deriving instance DecidableEq for Except

namespace SmartContractInteractor

/-! Embedding of SmartContractInteractor.py (ContractInvoker).
The chain-side collaborators (key-to-account derivation, the nonce query,
transaction building/signing, raw-transaction submission) and the contract
ABI are inputs; the nonce query and the submission are recorded as effects.
Note that event["apiPath"] and json.loads of the arguments parameter are
evaluated before the try block, so their failures are uncaught. -/

structure Param where
  name : String
  value : String
deriving DecidableEq

/-- The inbound tool-invocation event, restricted to the keys the code reads;
apiPath is none when the key is absent (bracket access then raises). -/
structure Event where
  apiPath : Option String
  parameters : Option (List Param)

/-- The dict comprehension over parameters: on duplicate names the last one wins. -/
def paramsGet (ps : List Param) (k : String) : Option String :=
  (ps.reverse.find? (fun p => p.name == k)).map (fun p => p.value)

/-- Bodies passed to build_response: a bare string, the SUCCESS dict, or the
ERROR dict. -/
inductive CBody where
  | msg (s : String)
  | successBody (txHash : String)
  | errorBody (message : String)
deriving DecidableEq

def escChar (c : Char) : List Char :=
  if c = '"' then ['\\', '"'] else if c = '\\' then ['\\', '\\'] else [c]

def jsonEscape (s : String) : String := ⟨s.data.foldr (fun c acc => escChar c ++ acc) []⟩

/-- json.dumps of the three body shapes the handler produces. -/
def dumpsCBody : CBody → String
  | .msg s => "\"" ++ jsonEscape s ++ "\""
  | .successBody h =>
    "\x7b\"status\": \"SUCCESS\", \"tx_hash\": \"" ++ jsonEscape h ++ "\"\x7d"
  | .errorBody m =>
    "\x7b\"status\": \"ERROR\", \"message\": \"" ++ jsonEscape m ++ "\"\x7d"

structure RespBody where
  applicationJsonBody : String
deriving DecidableEq

structure AgentResponse where
  actionGroup : String
  apiPath : String
  httpMethod : String
  httpStatusCode : Nat
  responseBody : RespBody
deriving DecidableEq

/-- build_response: the Bedrock envelope with hardcoded actionGroup, apiPath
and httpMethod, the given status code, and the json.dumps of the body nested
under responseBody["application/json"]["body"]. -/
def build_response (body : CBody) (status_code : Nat) : AgentResponse :=
  { actionGroup := "YourActionGroup"
    apiPath := "/yourApiPath"
    httpMethod := "POST"
    httpStatusCode := status_code
    responseBody := ⟨dumpsCBody body⟩ }

/-- The chain-side environment. -/
structure ChainWorld where
  oracleKey : String
  accountOf : String → Except String String
  nonceOf : String → Except String Nat
  abiFunctions : List String
  buildSign : String → List PyJson.JVal → Nat → Except String String
  sendRaw : String → Except String String

/-- Python argument splat of the loaded JSON value: lists splat to their
elements, strings to their characters, dicts to their keys; scalars raise. -/
def splat : PyJson.JVal → Except String (List PyJson.JVal)
  | .arr xs => .ok xs
  | .str s => .ok (s.data.map (fun c => .str ⟨[c]⟩))
  | .obj kvs => .ok (kvs.map (fun p => .str p.1))
  | _ => .error "argument after an asterisk must be an iterable"

/-- Exceptions that escape the handler uncaught. -/
inductive Escape where
  | keyError (k : String)
  | jsonDecodeError (src : String)
deriving DecidableEq

inductive CEffect where
  | getNonce
  | sendRawTx
deriving DecidableEq

/-- The try block of the handler: derive the account, query the nonce, look
the function up on the ABI, build/sign, submit; every failure is caught and
becomes an ERROR 500 response. -/
def tryBlock (w : ChainWorld) (f : String) (args : PyJson.JVal) :
    List CEffect × AgentResponse :=
  match w.accountOf w.oracleKey with
  | .error e => ([], build_response (.errorBody e) 500)
  | .ok addr =>
    match w.nonceOf addr with
    | .error e => ([.getNonce], build_response (.errorBody e) 500)
    | .ok nonce =>
      if f ∈ w.abiFunctions then
        match splat args with
        | .error e => ([.getNonce], build_response (.errorBody e) 500)
        | .ok argl =>
          match w.buildSign f argl nonce with
          | .error e => ([.getNonce], build_response (.errorBody e) 500)
          | .ok raw =>
            match w.sendRaw raw with
            | .error e => ([.getNonce, .sendRawTx], build_response (.errorBody e) 500)
            | .ok txh => ([.getNonce, .sendRawTx], build_response (.successBody txh) 200)
      else
        ([.getNonce],
         build_response (.errorBody ("The function " ++ f ++ " was not found in this contract abi")) 500)

/-- lambda_handler of SmartContractInteractor.py. The apiPath bracket access
and the json.loads of the arguments parameter run before the try block: their
failures escape as uncaught exceptions (the .error case). -/
def lambda_handler (w : ChainWorld) (event : Event) :
    Except Escape (List CEffect × AgentResponse) :=
  match event.apiPath with
  | none => .error (.keyError "apiPath")
  | some _ =>
    let ps := event.parameters.getD []
    let function_to_call := paramsGet ps "functionName"
    let argStr := (paramsGet ps "arguments").getD "[]"
    match PyJson.loads argStr with
    | none => .error (.jsonDecodeError argStr)
    | some function_args =>
      if (function_to_call.getD "").isEmpty then
        .ok ([], build_response (.msg "Function name not specified.") 400)
      else .ok (tryBlock w (function_to_call.getD "") function_args)

end SmartContractInteractor

namespace ChatRelay

/-! Embedding of lambda_function.py (ChatRelay).
The hosted agent and the chat platform are inputs: the agent invocation
either raises or yields the completion stream, and each of the three
requests.post call sites either succeeds or raises. Exceptions the code does
not catch (AttributeError / TypeError on non-dict values, and a failed post
outside a try block that would catch it) escape as the .error case. -/

/-- One event of the agent completion stream; chunk none models a bytes
payload whose utf-8 decode raises (caught by the block-4 handler). -/
inductive ChunkEv where
  | chunk (decoded : Option String)
  | other

structure TgWorld where
  agentResult : Except String (List ChunkEv)
  postNoticeResult : Except String Unit
  postApologyResult : Except String Unit
  postReplyResult : Except String Unit

/-- The API Gateway event, restricted to the one key the code reads. -/
structure TgEvent where
  body : Option String

inductive TgEffect where
  | invokeAgent
  | postNotice
  | postApology
  | postReply
deriving DecidableEq

inductive Escape where
  | attributeError
  | typeError
  | postFailed (msg : String)
deriving DecidableEq

structure Resp where
  statusCode : Nat
  body : String
deriving DecidableEq

/-- Concatenate the chunk payloads of the completion stream in order; a
failed decode raises (the block-4 handler catches it). -/
def assembleChunks : List ChunkEv → Except String String
  | [] => .ok ""
  | .chunk none :: _ => .error "decode error"
  | .chunk (some s) :: rest => (assembleChunks rest).map (fun t => s ++ t)
  | .other :: rest => assembleChunks rest

def exceptOk {e a : Type} : Except e a → Bool
  | .ok _ => true
  | .error _ => false

/-- Blocks 3 to 5: invoke the agent (failure: apology then 500), assemble the
stream (failure: 500 with no user-facing message), send the reply when any
text was assembled, acknowledge with 200. -/
def step3 (w : TgWorld) : Except Escape (List TgEffect × Resp) :=
  match w.agentResult with
  | .error _ =>
    match w.postApologyResult with
    | .error e => .error (.postFailed e)
    | .ok _ => .ok ([.invokeAgent, .postApology], ⟨500, "Agent invocation error"⟩)
  | .ok chunks =>
    match assembleChunks chunks with
    | .error _ => .ok ([.invokeAgent], ⟨500, "Agent response processing error"⟩)
    | .ok text =>
      if text.isEmpty then .ok ([.invokeAgent], ⟨200, "Message processed successfully"⟩)
      else
        match w.postReplyResult with
        | .error e => .error (.postFailed e)
        | .ok _ => .ok ([.invokeAgent, .postReply], ⟨200, "Message processed successfully"⟩)

/-- Block 2: extract chat/from ids and the text. Missing keys raise KeyError,
which is caught (400); a non-dict message, chat or from raises TypeError,
which is not caught; a non-text message sends the fixed notice (its failure
is also not caught, the surrounding try handles KeyError only). -/
def step2 (w : TgWorld) (mv : PyJson.JVal) : Except Escape (List TgEffect × Resp) :=
  match mv with
  | .obj mkvs =>
    (match PyJson.objGet? mkvs "chat" with
     | none => .ok ([], ⟨400, "Malformed Telegram message"⟩)
     | some (.obj ckvs) =>
       (match PyJson.objGet? ckvs "id" with
        | none => .ok ([], ⟨400, "Malformed Telegram message"⟩)
        | some _ =>
          (match PyJson.objGet? mkvs "from" with
           | none => .ok ([], ⟨400, "Malformed Telegram message"⟩)
           | some (.obj fkvs) =>
             (match PyJson.objGet? fkvs "id" with
              | none => .ok ([], ⟨400, "Malformed Telegram message"⟩)
              | some _ =>
                let text := (PyJson.objGet? mkvs "text").getD (.str "")
                if !(PyJson.truthy text) then
                  match w.postNoticeResult with
                  | .error e => .error (.postFailed e)
                  | .ok _ => .ok ([.postNotice], ⟨200, "Non-text message received"⟩)
                else step3 w)
           | some _ => .error .typeError))
     | some _ => .error .typeError)
  | _ => .error .typeError

/-- lambda_handler of lambda_function.py. Block 1 parses the body (decode
failure: 400) and exits early when there is no truthy message (200); a body
that is valid JSON but not an object raises AttributeError uncaught. -/
def lambda_handler (w : TgWorld) (event : TgEvent) :
    Except Escape (List TgEffect × Resp) :=
  match PyJson.loads (event.body.getD "\x7b\x7d") with
  | none => .ok ([], ⟨400, "Invalid JSON"⟩)
  | some (.obj bodyKvs) =>
    let message := (PyJson.objGet? bodyKvs "message").getD .null
    if !(PyJson.truthy message) then .ok ([], ⟨200, "Not a message update"⟩)
    else step2 w message
  | some _ => .error .attributeError

end ChatRelay

/-! Concrete fixtures used by witnesses and counterexamples. -/

namespace ExternalAPIFetcher

def curW : Date := ⟨2026, 10, 12⟩

def emptyHttpOk : HttpResp := ⟨200, "", []⟩

def wEmpty : World := ⟨⟨200, "", []⟩, fun _ => emptyHttpOk⟩

def rosterW : World := ⟨⟨200, "", [⟨"Arsenal", 57⟩, ⟨"Chelsea", 61⟩]⟩, fun _ => emptyHttpOk⟩

def w429 : World := ⟨⟨200, "", []⟩, fun _ => ⟨429, "limit", []⟩⟩

def mWinnerAbsent : MatchJson :=
  ⟨"2026-10-01T15:00:00Z", none, "Arsenal FC", "Chelsea FC", "FINISHED", some ⟨some ⟨2, 1⟩, none⟩⟩

def wWinnerAbsent : World := ⟨⟨200, "", []⟩, fun _ => ⟨200, "", [mWinnerAbsent]⟩⟩

def mDraw : MatchJson :=
  ⟨"2026-10-01T15:00:00Z", some "Emirates", "Arsenal FC", "Chelsea FC", "FINISHED",
   some ⟨some ⟨1, 1⟩, some (some "DRAW")⟩⟩

end ExternalAPIFetcher

namespace SmartContractInteractor

def chainW : ChainWorld :=
  ⟨"key", fun _ => .ok "addr", fun _ => .ok 7, ["resolveMarket"],
   fun _ _ _ => .ok "raw", fun _ => .ok "0xabc"⟩

end SmartContractInteractor

namespace ChatRelay

def tgW : TgWorld := ⟨.ok [.chunk (some "hello"), .other], .ok (), .ok (), .ok ()⟩

end ChatRelay

namespace ChatRelay

/-- Whether the value at key k, when present, is a JSON object. -/
def okObjField (kvs : List (String × PyJson.JVal)) (k : String) : Bool :=
  match PyJson.objGet? kvs k with
  | none => true
  | some (.obj _) => true
  | some _ => false

/-- Parsed webhook bodies on which the code raises no uncaught exception from
dict access: an object whose message, when truthy, is an object whose chat and
from values, when present, are objects. -/
def updateSafe : PyJson.JVal → Bool
  | .obj bodyKvs =>
    let message := (PyJson.objGet? bodyKvs "message").getD .null
    !(PyJson.truthy message) ||
      (match message with
       | .obj mkvs => okObjField mkvs "chat" && okObjField mkvs "from"
       | _ => false)
  | _ => false

end ChatRelay

open ExternalAPIFetcher in
/-- Claim C5: an event whose status value is present but neither SCHEDULED nor
FINISHED, and an event whose (explicit or defaulted) date_from or date_to does
not parse as YYYY-MM-DD, both make the handler return 400 with an error
message with an empty effect trace, i.e. before any outbound call. -/
theorem invalidInput_rejected :
    (∀ (w : World) (cur : Date) (ev : List (String × String)) (s : String),
      getv ev "status" = some s → s ≠ "SCHEDULED" → s ≠ "FINISHED" →
      lambda_handler w cur ev =
        ([], ⟨400, .errorMsg "Invalid status. Must be SCHEDULED or FINISHED"⟩))
    ∧ (∀ (w : World) (cur : Date) (ev : List (String × String)),
        (statusOf ev = "SCHEDULED" ∨ statusOf ev = "FINISHED") →
        ((parseDateStr (dateFromOf ev cur)).isNone ∨ (parseDateStr (dateToOf ev cur)).isNone) →
        lambda_handler w cur ev = ([], ⟨400, .errorMsg "Invalid date format. Use YYYY-MM-DD"⟩)) := by
  constructor
  · intro w cur ev s hs hne1 hne2
    have hst : statusOf ev = s := by simp [statusOf, hs]
    unfold lambda_handler
    simp [hst, hne1, hne2]
  · intro w cur ev hval hbad
    unfold lambda_handler
    rcases hval with h | h <;> rcases hbad with hb | hb <;> simp [h, hb]

open ExternalAPIFetcher in
/-- Witness for invalidInput_rejected at concrete inputs. -/
theorem invalidInput_rejected_witness :
    lambda_handler wEmpty curW [("status", "LIVE")] =
      ([], ⟨400, .errorMsg "Invalid status. Must be SCHEDULED or FINISHED"⟩)
    ∧ lambda_handler wEmpty curW [("status", "FINISHED"), ("date_from", "nope")] =
      ([], ⟨400, .errorMsg "Invalid date format. Use YYYY-MM-DD"⟩) :=
  ⟨invalidInput_rejected.1 wEmpty curW [("status", "LIVE")] "LIVE"
     (by decide) (by decide) (by decide),
   invalidInput_rejected.2 wEmpty curW [("status", "FINISHED"), ("date_from", "nope")]
     (Or.inr (by decide)) (Or.inl (by decide))⟩


namespace ExternalAPIFetcher

theorem runAttempts_trace_ne_nil (w : World) (u s f t : String) (a fu : Nat) :
    (runAttempts w u s f t a (fu + 1)).1 ≠ [] := by
  unfold runAttempts
  dsimp only
  split
  · simp
  · split <;> simp

theorem fetchAndFormat_trace (w : World) (u s f t : String) (pre : List Effect) :
    (fetchAndFormat w u s f t pre).1 = pre ++ (runAttempts w u s f t 0 3).1 := by
  unfold fetchAndFormat
  dsimp only
  split
  · rfl
  · rfl
  · split <;> rfl

theorem fetchAndFormat_trace_ne_nil (w : World) (u s f t : String) (pre : List Effect) :
    (fetchAndFormat w u s f t pre).1 ≠ [] := by
  rw [fetchAndFormat_trace]
  intro h
  rcases List.append_eq_nil.mp h with ⟨_, h2⟩
  exact runAttempts_trace_ne_nil w u s f t 0 2 h2

/-- A non-empty event never produces the no-call empty-list success result. -/
theorem nonempty_not_emptyResult (w : World) (cur : Date) (ev : List (String × String))
    (h : lambda_handler w cur ev = ([], ⟨200, .matchList []⟩)) : ev = [] := by
  unfold lambda_handler at h
  dsimp only at h
  split at h
  · simp at h
  · split at h
    · simp at h
    · split at h
      · rename_i hemp
        exact List.isEmpty_iff.mp hemp
      · split at h
        · split at h
          · split at h
            · simp at h
            · simp at h
            · exact absurd (congrArg Prod.fst h) (fetchAndFormat_trace_ne_nil _ _ _ _ _ _)
          · exact absurd (congrArg Prod.fst h) (fetchAndFormat_trace_ne_nil _ _ _ _ _ _)
        · exact absurd (congrArg Prod.fst h) (fetchAndFormat_trace_ne_nil _ _ _ _ _ _)

end ExternalAPIFetcher

open ExternalAPIFetcher in
/-- Claim C10: the empty event returns 200 with an empty matches list and an
empty effect trace (no outbound call), short-circuiting before the team lookup
and the fetch even though the defaulted SCHEDULED status and dates would apply
(the defaulted date must be well-formed, which any realistic clock gives); and
conversely that outcome is reached only when the event has no keys at all. -/
theorem emptyEvent_shortCircuit :
    (∀ (w : World) (cur : Date),
      (parseDateStr (strftimeDate (addDays cur 5))).isSome →
      lambda_handler w cur [] = ([], ⟨200, .matchList []⟩))
    ∧ (∀ (w : World) (cur : Date) (ev : List (String × String)),
        lambda_handler w cur ev = ([], ⟨200, .matchList []⟩) → ev = []) := by
  constructor
  · intro w cur hp
    obtain ⟨d, hd⟩ := Option.isSome_iff_exists.mp hp
    unfold lambda_handler
    simp [statusOf, getv, dateFromOf, dateToOf, hd]
  · exact fun w cur ev h => nonempty_not_emptyResult w cur ev h

open ExternalAPIFetcher in
/-- Witness for emptyEvent_shortCircuit at a concrete clock and world. -/
theorem emptyEvent_shortCircuit_witness :
    lambda_handler wEmpty curW [] = ([], ⟨200, .matchList []⟩) :=
  emptyEvent_shortCircuit.1 wEmpty curW (by decide)

open ExternalAPIFetcher in
/-- Counterexample to claim C1: a FINISHED match whose score object has no
winner key does not produce a record with winner "unknown"; the bracket access
raises KeyError and the whole request fails with 500 instead. -/
theorem matchReshaping_cex :
    formatMatch mWinnerAbsent = .error (.keyError "winner")
    ∧ (lambda_handler wWinnerAbsent curW [("status", "FINISHED")]).2
        = ⟨500, .errorMsg "Internal server error: winner"⟩ := by
  decide

open ExternalAPIFetcher in
/-- Claim C1 amended: for a FINISHED match whose score object carries fullTime
and a winner entry, code HOME_TEAM maps to the home team name, AWAY_TEAM to
the away team name, DRAW to "draw", and anything else (including a JSON null)
to "unknown"; a non-FINISHED match never carries score or winner fields; and a
missing winner key makes the formatting raise. -/
theorem matchReshaping_amended :
    (∀ (m : MatchJson) (sc : ScoreJson) (ft : FullTime) (code : Option String),
      m.status = "FINISHED" → m.score = some sc → sc.fullTime = some ft →
      sc.winner = some code →
      formatMatch m = .ok ⟨m.utcDate, m.venue.getD "Unknown", m.homeTeam, m.awayTeam,
        some (ft.home, ft.away), some (winnerField m code)⟩
      ∧ (code = some "HOME_TEAM" → winnerField m code = m.homeTeam)
      ∧ (code = some "AWAY_TEAM" → winnerField m code = m.awayTeam)
      ∧ (code = some "DRAW" → winnerField m code = "draw")
      ∧ (code ≠ some "HOME_TEAM" → code ≠ some "AWAY_TEAM" → code ≠ some "DRAW" →
          winnerField m code = "unknown"))
    ∧ (∀ (m : MatchJson) (r : MatchData), m.status ≠ "FINISHED" →
        formatMatch m = .ok r → r.score = none ∧ r.winner = none)
    ∧ (∀ (m : MatchJson) (sc : ScoreJson), m.status = "FINISHED" → m.score = some sc →
        sc.winner = none → ∃ k, formatMatch m = .error (.keyError k)) := by
  refine ⟨?_, ?_, ?_⟩
  · intro m sc ft code h1 h2 h3 h4
    refine ⟨?_, ?_, ?_, ?_, ?_⟩
    · unfold formatMatch
      simp [h1, h2, h3, h4]
    · intro hc
      simp [winnerField, hc]
    · intro hc
      simp [winnerField, hc]
    · intro hc
      simp [winnerField, hc]
    · intro hc1 hc2 hc3
      simp only [winnerField, beq_iff_eq]
      rw [if_neg hc1, if_neg hc2, if_neg hc3]
  · intro m r h hr
    unfold formatMatch at hr
    rw [if_neg (by simpa using h)] at hr
    cases hr
    simp
  · intro m sc h1 h2 h3
    unfold formatMatch
    rcases hft : sc.fullTime with _ | ft
    · exact ⟨"fullTime", by simp [h1, h2, hft]⟩
    · exact ⟨"winner", by simp [h1, h2, hft, h3]⟩

open ExternalAPIFetcher in
/-- Witness for matchReshaping_amended at a concrete drawn FINISHED match. -/
theorem matchReshaping_amended_witness :
    formatMatch mDraw = .ok ⟨"2026-10-01T15:00:00Z", "Emirates", "Arsenal FC", "Chelsea FC",
      some (1, 1), some "draw"⟩
    ∧ winnerField mDraw (some "DRAW") = "draw" := by
  have h := (matchReshaping_amended.1 mDraw ⟨some ⟨1, 1⟩, some (some "DRAW")⟩ ⟨1, 1⟩
    (some "DRAW") rfl rfl rfl rfl)
  exact ⟨h.1, h.2.2.2.1 rfl⟩

namespace ExternalAPIFetcher

theorem runAttempts_mem_fetch (w : World) (u s f t : String) (a fu : Nat) :
    Effect.getMatches u s f t ∈ (runAttempts w u s f t a (fu + 1)).1 := by
  unfold runAttempts
  dsimp only
  split
  · simp
  · split <;> simp

end ExternalAPIFetcher


open ExternalAPIFetcher in
/-- Claim C7: with no explicit dates, the defaults are status-dependent:
SCHEDULED gives the single date 5 days after the current date for both bounds,
FINISHED gives the window from 7 days before the current date to the current
date; and the fetch the handler then issues (competition path) carries exactly
those defaulted status and dates as its query parameters. -/
theorem defaultDateWindow :
    (∀ (ev : List (String × String)) (cur : Date),
      getv ev "date_from" = none → getv ev "date_to" = none →
      (statusOf ev = "SCHEDULED" →
        dateFromOf ev cur = strftimeDate (addDays cur 5)
        ∧ dateToOf ev cur = strftimeDate (addDays cur 5))
      ∧ (statusOf ev = "FINISHED" →
        dateFromOf ev cur = strftimeDate (subDays cur 7)
        ∧ dateToOf ev cur = strftimeDate cur))
    ∧ (∀ (w : World) (cur : Date) (ev : List (String × String)),
        (statusOf ev = "SCHEDULED" ∨ statusOf ev = "FINISHED") →
        (parseDateStr (dateFromOf ev cur)).isSome →
        (parseDateStr (dateToOf ev cur)).isSome →
        ev.isEmpty = false →
        getv ev "team" = none →
        Effect.getMatches compMatchesUrl (statusOf ev) (dateFromOf ev cur) (dateToOf ev cur)
          ∈ (lambda_handler w cur ev).1) := by
  constructor
  · intro ev cur hf ht
    constructor
    · intro hs
      exact ⟨by simp [dateFromOf, hs, hf], by simp [dateToOf, hs, ht]⟩
    · intro hs
      exact ⟨by simp [dateFromOf, hs, hf], by simp [dateToOf, hs, ht]⟩
  · intro w cur ev hval hf ht hne hteam
    obtain ⟨d1, hd1⟩ := Option.isSome_iff_exists.mp hf
    obtain ⟨d2, hd2⟩ := Option.isSome_iff_exists.mp ht
    have hcond : (statusOf ev == "SCHEDULED" || statusOf ev == "FINISHED") = true := by
      rcases hval with h | h <;> simp [h]
    unfold lambda_handler
    simp only [hcond, Bool.not_true, if_false, hd1, hd2, Option.isNone_some,
      Bool.or_self, hne, hteam, Bool.false_eq_true]
    rw [fetchAndFormat_trace]
    simp only [List.nil_append]
    exact runAttempts_mem_fetch w _ _ _ _ 0 2

open ExternalAPIFetcher in
/-- Witness for defaultDateWindow: a FINISHED query with no dates on
2026-10-12 defaults to the window 2026-10-05 .. 2026-10-12, and the fetch
effect carrying the SCHEDULED default 2026-10-17 appears in the trace. -/
theorem defaultDateWindow_witness :
    (dateFromOf [("status", "FINISHED")] curW = "2026-10-05"
      ∧ dateToOf [("status", "FINISHED")] curW = "2026-10-12")
    ∧ Effect.getMatches compMatchesUrl "SCHEDULED" "2026-10-17" "2026-10-17"
        ∈ (lambda_handler wEmpty curW [("status", "SCHEDULED")]).1 := by
  constructor
  · have h := (defaultDateWindow.1 [("status", "FINISHED")] curW (by decide) (by decide)).2
      (by decide)
    exact ⟨h.1.trans (by decide), h.2.trans (by decide)⟩
  · have h := defaultDateWindow.2 wEmpty curW [("status", "SCHEDULED")]
      (Or.inl (by decide)) (by decide) (by decide) (by decide) (by decide)
    have e1 : statusOf [("status", "SCHEDULED")] = "SCHEDULED" := by decide
    have e2 : dateFromOf [("status", "SCHEDULED")] curW = "2026-10-17" := by decide
    have e3 : dateToOf [("status", "SCHEDULED")] curW = "2026-10-17" := by decide
    rw [e1, e2, e3] at h
    exact h

namespace ExternalAPIFetcher

theorem countFetches_nil : countFetches [] = 0 := rfl

theorem countFetches_fetch_cons (u s f t : String) (l : List Effect) :
    countFetches (Effect.getMatches u s f t :: l) = countFetches l + 1 := by
  simp [countFetches, List.filter]

theorem countFetches_sleep_cons (n : Nat) (l : List Effect) :
    countFetches (Effect.sleep n :: l) = countFetches l := by
  simp [countFetches, List.filter]

theorem countFetches_teams_cons (l : List Effect) :
    countFetches (Effect.getTeams :: l) = countFetches l := by
  simp [countFetches, List.filter]

theorem countFetches_append (l1 l2 : List Effect) :
    countFetches (l1 ++ l2) = countFetches l1 + countFetches l2 := by
  simp [countFetches, List.filter_append]

theorem countFetches_runAttempts_le (w : World) (u s f t : String) (a fu : Nat) :
    countFetches (runAttempts w u s f t a fu).1 ≤ fu := by
  induction fu generalizing a with
  | zero => simp [runAttempts, countFetches]
  | succ n ih =>
    unfold runAttempts
    dsimp only
    split
    · rw [countFetches_fetch_cons, countFetches_sleep_cons]
      have := ih (a + 1)
      omega
    · split <;> simp [countFetches_fetch_cons, countFetches_nil]

theorem countFetches_handler_le (w : World) (cur : Date) (ev : List (String × String)) :
    countFetches (lambda_handler w cur ev).1 ≤ 3 := by
  unfold lambda_handler
  dsimp only
  split
  · simp [countFetches]
  · split
    · simp [countFetches]
    · split
      · simp [countFetches]
      · split
        · split
          · split
            · simp [countFetches, List.filter]
            · simp [countFetches, List.filter]
            · rw [fetchAndFormat_trace, countFetches_append, countFetches_teams_cons,
                countFetches_nil]
              simpa using countFetches_runAttempts_le w _ _ _ _ 0 3
          · rw [fetchAndFormat_trace, countFetches_append]
            simpa [countFetches_nil] using countFetches_runAttempts_le w _ _ _ _ 0 3
        · rw [fetchAndFormat_trace, countFetches_append]
          simpa [countFetches_nil] using countFetches_runAttempts_le w _ _ _ _ 0 3

theorem runAttempts_all429 (w : World) (u s f t : String)
    (h : ∀ i, i < 3 → (w.matchResp i).status_code = 429) :
    runAttempts w u s f t 0 3 =
      ([.getMatches u s f t, .sleep 1, .getMatches u s f t, .sleep 2,
        .getMatches u s f t, .sleep 4], .exhausted) := by
  have h0 := h 0 (by omega)
  have h1 := h 1 (by omega)
  have h2 := h 2 (by omega)
  simp [runAttempts, h0, h1, h2]

theorem runAttempts_429_then_200 (w : World) (u s f t : String)
    (h0 : (w.matchResp 0).status_code = 429) (h1 : (w.matchResp 1).status_code = 200) :
    runAttempts w u s f t 0 3 =
      ([.getMatches u s f t, .sleep 1, .getMatches u s f t], .success (w.matchResp 1)) := by
  simp [runAttempts, h0, h1]

theorem runAttempts_no_retry (w : World) (u s f t : String) (a fu : Nat)
    (h : (w.matchResp a).status_code ≠ 429) :
    countFetches (runAttempts w u s f t a (fu + 1)).1 = 1 := by
  unfold runAttempts
  dsimp only
  rw [if_neg (by simpa using h)]
  split <;> simp [countFetches_fetch_cons, countFetches_nil]

theorem fetchAndFormat_exhausted (w : World) (u s f t : String) (pre : List Effect)
    (h : (runAttempts w u s f t 0 3).2 = .exhausted) :
    (fetchAndFormat w u s f t pre).2 =
      ⟨429, .errorMsg "API rate limit exceeded after retries"⟩ := by
  unfold fetchAndFormat
  dsimp only
  simp only [h]

theorem handler_fetch_shape (w : World) (cur : Date) (ev : List (String × String)) :
    (∀ u s f t, Effect.getMatches u s f t ∉ (lambda_handler w cur ev).1)
    ∨ (∃ url pre, lambda_handler w cur ev =
        fetchAndFormat w url (statusOf ev) (dateFromOf ev cur) (dateToOf ev cur) pre) := by
  unfold lambda_handler
  dsimp only
  split
  · left; intro u s f t; simp
  · split
    · left; intro u s f t; simp
    · split
      · left; intro u s f t; simp
      · split
        · split
          · split
            · left; intro u s f t; simp
            · left; intro u s f t; simp
            · right; exact ⟨_, _, rfl⟩
          · right; exact ⟨_, _, rfl⟩
        · right; exact ⟨_, _, rfl⟩

end ExternalAPIFetcher

open ExternalAPIFetcher in
/-- Claim C2: every run of the handler records at most 3 fetch attempts; when
all three responses are rate-limited (429) the loop trace is fetch, 1s sleep,
fetch, 2s sleep, fetch (then a final 2 ** 2 = 4s sleep the loop performs before
giving up) and the handler answers 429; a 429 followed by a 200 yields the
success with exactly one retry delay (1s); a first response that is not 429 is
never retried (exactly one fetch). -/
theorem fetchRetryPolicy :
    (∀ (w : World) (cur : Date) (ev : List (String × String)),
      countFetches (lambda_handler w cur ev).1 ≤ 3)
    ∧ (∀ (w : World) (u s f t : String),
        (∀ i, i < 3 → (w.matchResp i).status_code = 429) →
        runAttempts w u s f t 0 3 =
          ([.getMatches u s f t, .sleep 1, .getMatches u s f t, .sleep 2,
            .getMatches u s f t, .sleep 4], .exhausted))
    ∧ (∀ (w : World) (cur : Date) (ev : List (String × String)),
        (∀ i, i < 3 → (w.matchResp i).status_code = 429) →
        (∃ u s f t, Effect.getMatches u s f t ∈ (lambda_handler w cur ev).1) →
        (lambda_handler w cur ev).2 =
          ⟨429, .errorMsg "API rate limit exceeded after retries"⟩)
    ∧ (∀ (w : World) (u s f t : String),
        (w.matchResp 0).status_code = 429 → (w.matchResp 1).status_code = 200 →
        runAttempts w u s f t 0 3 =
          ([.getMatches u s f t, .sleep 1, .getMatches u s f t], .success (w.matchResp 1)))
    ∧ (∀ (w : World) (u s f t : String) (a fu : Nat),
        (w.matchResp a).status_code ≠ 429 →
        countFetches (runAttempts w u s f t a (fu + 1)).1 = 1) := by
  refine ⟨countFetches_handler_le, runAttempts_all429, ?_, runAttempts_429_then_200,
    runAttempts_no_retry⟩
  intro w cur ev hall hfetch
  rcases handler_fetch_shape w cur ev with hno | ⟨url, pre, heq⟩
  · obtain ⟨u, s, f, t, hmem⟩ := hfetch
    exact absurd hmem (hno u s f t)
  · rw [heq]
    exact fetchAndFormat_exhausted w _ _ _ _ pre
      (by rw [runAttempts_all429 w _ _ _ _ hall])

open ExternalAPIFetcher in
/-- Witness for fetchRetryPolicy at a concrete all-429 world and a concrete
immediately-successful world. -/
theorem fetchRetryPolicy_witness :
    runAttempts w429 "u" "FINISHED" "2026-10-05" "2026-10-12" 0 3 =
      ([.getMatches "u" "FINISHED" "2026-10-05" "2026-10-12", .sleep 1,
        .getMatches "u" "FINISHED" "2026-10-05" "2026-10-12", .sleep 2,
        .getMatches "u" "FINISHED" "2026-10-05" "2026-10-12", .sleep 4], .exhausted)
    ∧ (lambda_handler w429 curW [("status", "SCHEDULED")]).2 =
        ⟨429, .errorMsg "API rate limit exceeded after retries"⟩
    ∧ countFetches (runAttempts wEmpty "u" "s" "f" "t" 0 3).1 = 1 :=
  ⟨fetchRetryPolicy.2.1 w429 "u" "FINISHED" "2026-10-05" "2026-10-12" (by decide),
   fetchRetryPolicy.2.2.1 w429 curW [("status", "SCHEDULED")] (by decide)
     ⟨compMatchesUrl, "SCHEDULED", "2026-10-17", "2026-10-17", by decide⟩,
   fetchRetryPolicy.2.2.2.2 wEmpty "u" "s" "f" "t" 0 2 (by decide)⟩

namespace ExternalAPIFetcher

theorem runAttempts_trace_urls (w : World) (u s f t : String) (a fu : Nat) :
    ∀ e ∈ (runAttempts w u s f t a fu).1,
      (∃ n, e = Effect.sleep n) ∨ e = Effect.getMatches u s f t := by
  induction fu generalizing a with
  | zero => simp [runAttempts]
  | succ n ih =>
    unfold runAttempts
    dsimp only
    split
    · intro e he
      simp only [List.mem_cons] at he
      rcases he with rfl | rfl | hrest
      · right; rfl
      · left; exact ⟨_, rfl⟩
      · exact ih (a + 1) e hrest
    · split <;> (intro e he; simp at he; right; rw [he])

theorem find?_first (nm : String) (pre post : List TeamEntry) (t : TeamEntry)
    (hpre : ∀ u ∈ pre, pyLower u.name ≠ pyLower nm) (ht : pyLower t.name = pyLower nm) :
    (pre ++ t :: post).find? (fun u => pyLower u.name == pyLower nm) = some t := by
  induction pre with
  | nil => simp [List.find?_cons_of_pos, ht]
  | cons x xs ih =>
    rw [List.cons_append, List.find?_cons_of_neg]
    · exact ih (fun u hu => hpre u (List.mem_cons_of_mem x hu))
    · simpa using hpre x (List.mem_cons_self x xs)

end ExternalAPIFetcher

open ExternalAPIFetcher in
/-- Claim C6: a supplied team name is resolved case-insensitively by exact
match against the roster, the first matching entry winning; no match gives a
404 from the handler, a non-200 roster response gives a 500, and successful
resolution makes every subsequent fetch target the team-scoped endpoint
/teams/id/matches. -/
theorem teamResolution :
    (∀ (resp : TeamsResp) (nm : String) (pre post : List TeamEntry) (t : TeamEntry),
      resp.status_code = 200 →
      resp.teams = pre ++ t :: post →
      (∀ u ∈ pre, pyLower u.name ≠ pyLower nm) →
      pyLower t.name = pyLower nm →
      get_team_id resp nm = .found t.id)
    ∧ (∀ (resp : TeamsResp) (nm : String),
        resp.status_code = 200 →
        (∀ u ∈ resp.teams, pyLower u.name ≠ pyLower nm) →
        get_team_id resp nm = .notFound ("Team " ++ nm ++ " not found in EPL."))
    ∧ (∀ (resp : TeamsResp) (nm : String),
        resp.status_code ≠ 200 →
        get_team_id resp nm = .fetchFailed ("Failed to fetch teams: " ++ resp.text))
    ∧ (∀ (w : World) (cur : Date) (ev : List (String × String)) (tn msg : String),
        (statusOf ev = "SCHEDULED" ∨ statusOf ev = "FINISHED") →
        (parseDateStr (dateFromOf ev cur)).isSome →
        (parseDateStr (dateToOf ev cur)).isSome →
        ev.isEmpty = false →
        getv ev "team" = some tn → tn.isEmpty = false →
        (get_team_id w.teamsResp tn = .notFound msg →
          lambda_handler w cur ev = ([.getTeams], ⟨404, .errorMsg msg⟩))
        ∧ (get_team_id w.teamsResp tn = .fetchFailed msg →
          lambda_handler w cur ev =
            ([.getTeams], ⟨500, .errorMsg ("Failed to fetch team ID: " ++ msg)⟩)))
    ∧ (∀ (w : World) (cur : Date) (ev : List (String × String)) (tn : String) (j : Nat),
        (statusOf ev = "SCHEDULED" ∨ statusOf ev = "FINISHED") →
        (parseDateStr (dateFromOf ev cur)).isSome →
        (parseDateStr (dateToOf ev cur)).isSome →
        ev.isEmpty = false →
        getv ev "team" = some tn → tn.isEmpty = false →
        get_team_id w.teamsResp tn = .found j →
        Effect.getMatches (teamMatchesUrl j) (statusOf ev) (dateFromOf ev cur) (dateToOf ev cur)
          ∈ (lambda_handler w cur ev).1
        ∧ (∀ u s f t2, Effect.getMatches u s f t2 ∈ (lambda_handler w cur ev).1 →
            u = teamMatchesUrl j)) := by
  have hcond : ∀ ev : List (String × String),
      (statusOf ev = "SCHEDULED" ∨ statusOf ev = "FINISHED") →
      (statusOf ev == "SCHEDULED" || statusOf ev == "FINISHED") = true := by
    intro ev h
    rcases h with h | h <;> simp [h]
  refine ⟨?_, ?_, ?_, ?_, ?_⟩
  · intro resp nm pre post t h200 hteams hpre ht
    unfold get_team_id
    rw [if_neg (by simp [h200]), hteams, find?_first nm pre post t hpre ht]
  · intro resp nm h200 hall
    unfold get_team_id
    rw [if_neg (by simp [h200]), List.find?_eq_none.mpr (by simpa using hall)]
  · intro resp nm hne
    unfold get_team_id
    rw [if_pos (by simpa using hne)]
  · intro w cur ev tn msg hval hf ht hne hteam htne
    obtain ⟨d1, hd1⟩ := Option.isSome_iff_exists.mp hf
    obtain ⟨d2, hd2⟩ := Option.isSome_iff_exists.mp ht
    constructor
    · intro hlook
      unfold lambda_handler
      simp only [hcond ev hval, Bool.not_true, if_false, hd1, hd2, Option.isNone_some,
        Bool.or_self, hne, hteam, htne, Bool.not_false, if_true, hlook, Bool.false_eq_true]
    · intro hlook
      unfold lambda_handler
      simp only [hcond ev hval, Bool.not_true, if_false, hd1, hd2, Option.isNone_some,
        Bool.or_self, hne, hteam, htne, Bool.not_false, if_true, hlook, Bool.false_eq_true]
  · intro w cur ev tn j hval hf ht hne hteam htne hlook
    obtain ⟨d1, hd1⟩ := Option.isSome_iff_exists.mp hf
    obtain ⟨d2, hd2⟩ := Option.isSome_iff_exists.mp ht
    have heq : lambda_handler w cur ev =
        fetchAndFormat w (teamMatchesUrl j) (statusOf ev) (dateFromOf ev cur)
          (dateToOf ev cur) [.getTeams] := by
      unfold lambda_handler
      simp only [hcond ev hval, Bool.not_true, if_false, hd1, hd2, Option.isNone_some,
        Bool.or_self, hne, hteam, htne, Bool.not_false, if_true, hlook, Bool.false_eq_true]
    rw [heq, fetchAndFormat_trace]
    constructor
    · exact List.mem_append_right _ (runAttempts_mem_fetch w _ _ _ _ 0 2)
    · intro u s f t2 hmem
      rcases List.mem_append.mp hmem with hl | hr
      · simp at hl
      · rcases runAttempts_trace_urls w _ _ _ _ 0 3 _ hr with ⟨n, hn⟩ | hfe
        · simp at hn
        · injection hfe with h1 h2 h3 h4

open ExternalAPIFetcher in
/-- Witness for teamResolution: "arsenal" resolves against the roster entry
"Arsenal" (id 57), "Arsenallll" yields the 404 path, and the team-scoped url
appears in the trace after resolution. -/
theorem teamResolution_witness :
    get_team_id rosterW.teamsResp "arsenal" = .found 57
    ∧ get_team_id rosterW.teamsResp "Arsenallll" =
        .notFound "Team Arsenallll not found in EPL."
    ∧ lambda_handler rosterW curW [("team", "Arsenallll")] =
        ([.getTeams], ⟨404, .errorMsg "Team Arsenallll not found in EPL."⟩)
    ∧ Effect.getMatches (teamMatchesUrl 57) "SCHEDULED" "2026-10-17" "2026-10-17"
        ∈ (lambda_handler rosterW curW [("team", "arsenal")]).1 := by
  refine ⟨?_, ?_, ?_, ?_⟩
  · exact teamResolution.1 rosterW.teamsResp "arsenal" [] [⟨"Chelsea", 61⟩] ⟨"Arsenal", 57⟩
      (by decide) (by decide) (by decide) (by decide)
  · exact teamResolution.2.1 rosterW.teamsResp "Arsenallll" (by decide) (by decide)
  · exact (teamResolution.2.2.2.1 rosterW curW [("team", "Arsenallll")] "Arsenallll"
      "Team Arsenallll not found in EPL." (Or.inl (by decide)) (by decide) (by decide)
      (by decide) (by decide) (by decide)).1 (by decide)
  · have h := (teamResolution.2.2.2.2 rosterW curW [("team", "arsenal")] "arsenal" 57
      (Or.inl (by decide)) (by decide) (by decide) (by decide) (by decide) (by decide)
      (by decide)).1
    have e1 : statusOf [("team", "arsenal")] = "SCHEDULED" := by decide
    have e2 : dateFromOf [("team", "arsenal")] curW = "2026-10-17" := by decide
    have e3 : dateToOf [("team", "arsenal")] curW = "2026-10-17" := by decide
    rw [e1, e2, e3] at h
    exact h

namespace SmartContractInteractor

theorem tryBlock_resp (w : ChainWorld) (f : String) (args : PyJson.JVal) :
    ∃ b c, (tryBlock w f args).2 = build_response b c := by
  unfold tryBlock
  split
  · exact ⟨_, _, rfl⟩
  · split
    · exact ⟨_, _, rfl⟩
    · split
      · split
        · exact ⟨_, _, rfl⟩
        · split
          · exact ⟨_, _, rfl⟩
          · split
            · exact ⟨_, _, rfl⟩
            · exact ⟨_, _, rfl⟩
      · exact ⟨_, _, rfl⟩

theorem handler_ok_shape (w : ChainWorld) (ev : Event) (tr : List CEffect)
    (resp : AgentResponse) (h : lambda_handler w ev = .ok (tr, resp)) :
    ∃ b c, resp = build_response b c := by
  unfold lambda_handler at h
  cases hap : ev.apiPath with
  | none =>
    simp only [hap] at h
    cases h
  | some p =>
    simp only [hap] at h
    cases hl : PyJson.loads ((paramsGet (ev.parameters.getD []) "arguments").getD "[]") with
    | none =>
      simp only [hl] at h
      cases h
    | some v =>
      simp only [hl] at h
      by_cases hfn : ((paramsGet (ev.parameters.getD []) "functionName").getD "").isEmpty
      · rw [if_pos hfn] at h
        injection h with h2
        exact ⟨_, _, (congrArg Prod.snd h2).symm⟩
      · rw [if_neg hfn] at h
        injection h with h2
        obtain ⟨b, c, hb⟩ := tryBlock_resp w ((paramsGet (ev.parameters.getD []) "functionName").getD "") v
        exact ⟨b, c, ((congrArg Prod.snd h2).symm).trans hb⟩

end SmartContractInteractor

open SmartContractInteractor in
/-- Counterexample to claim C4: the response does not mirror the request.
A request with apiPath "/foo" is answered with the hardcoded apiPath
"/yourApiPath" (and likewise hardcoded actionGroup and httpMethod), so the
claimed echoing of the inbound fields fails. -/
theorem responseMirroring_cex :
    SmartContractInteractor.lambda_handler chainW
        ⟨some "/foo", some [⟨"functionName", "resolveMarket"⟩]⟩
      = .ok ([.getNonce, .sendRawTx], build_response (.successBody "0xabc") 200)
    ∧ (build_response (.successBody "0xabc") 200).apiPath = "/yourApiPath"
    ∧ ("/yourApiPath" : String) ≠ "/foo" := by
  decide

open SmartContractInteractor in
/-- Claim C4 amended: every successful handler return is a build_response
envelope, whose actionGroup, apiPath and httpMethod are the fixed placeholder
strings (not mirrored from the request), and which carries httpStatusCode and
the JSON-encoded body string under responseBody["application/json"]["body"]. -/
theorem responseEnvelope_amended :
    (∀ (w : ChainWorld) (ev : Event) (tr : List CEffect) (resp : AgentResponse),
      lambda_handler w ev = .ok (tr, resp) → ∃ b c, resp = build_response b c)
    ∧ (∀ (b : CBody) (c : Nat),
        (build_response b c).actionGroup = "YourActionGroup"
        ∧ (build_response b c).apiPath = "/yourApiPath"
        ∧ (build_response b c).httpMethod = "POST"
        ∧ (build_response b c).httpStatusCode = c
        ∧ (build_response b c).responseBody = ⟨dumpsCBody b⟩) :=
  ⟨fun w ev tr resp h => handler_ok_shape w ev tr resp h,
   fun _ _ => ⟨rfl, rfl, rfl, rfl, rfl⟩⟩

open SmartContractInteractor in
/-- Witness for responseEnvelope_amended at a concrete request. -/
theorem responseEnvelope_amended_witness :
    ∃ b c, build_response (.msg "Function name not specified.") 400 = build_response b c :=
  responseEnvelope_amended.1 chainW ⟨some "/x", some []⟩ []
    (build_response (.msg "Function name not specified.") 400) (by decide)

open SmartContractInteractor in
/-- Counterexample to claim C8: a request whose parameters lack functionName
but carry a non-JSON arguments string does not return 400; json.loads runs
before the functionName check and its failure escapes uncaught. -/
theorem missingFunctionName_cex :
    SmartContractInteractor.lambda_handler chainW
        ⟨some "/x", some [⟨"arguments", "oops"⟩]⟩
      = .error (.jsonDecodeError "oops")
    ∧ paramsGet [⟨"arguments", "oops"⟩] "functionName" = none := by
  decide

open SmartContractInteractor in
/-- Claim C8 amended: provided the event carries apiPath and its arguments
parameter (defaulting to "[]") parses as JSON, a missing or empty functionName
makes the handler return 400 immediately with an empty effect trace (no nonce
query, no submission). -/
theorem missingFunctionName_amended :
    ∀ (w : ChainWorld) (ev : Event) (p : String),
      ev.apiPath = some p →
      (PyJson.loads ((paramsGet (ev.parameters.getD []) "arguments").getD "[]")).isSome →
      ((paramsGet (ev.parameters.getD []) "functionName").getD "").isEmpty = true →
      lambda_handler w ev =
        .ok ([], build_response (.msg "Function name not specified.") 400) := by
  intro w ev p hap hargs hfn
  obtain ⟨v, hv⟩ := Option.isSome_iff_exists.mp hargs
  unfold lambda_handler
  simp only [hap, hv, hfn, if_true]

open SmartContractInteractor in
/-- Witness for missingFunctionName_amended at a concrete request. -/
theorem missingFunctionName_amended_witness :
    SmartContractInteractor.lambda_handler chainW ⟨some "/x", some []⟩
      = .ok ([], build_response (.msg "Function name not specified.") 400) :=
  missingFunctionName_amended chainW ⟨some "/x", some []⟩ "/x" (by decide) (by decide) (by decide)

open SmartContractInteractor in
/-- Claim C9: a request naming a function absent from the configured contract
interface is answered with an ERROR body and httpStatusCode 500, and the trace
never contains a raw-transaction submission on that path. -/
theorem unknownFunction_error :
    ∀ (w : ChainWorld) (ev : Event) (p f : String),
      ev.apiPath = some p →
      (PyJson.loads ((paramsGet (ev.parameters.getD []) "arguments").getD "[]")).isSome →
      paramsGet (ev.parameters.getD []) "functionName" = some f →
      f.isEmpty = false →
      f ∉ w.abiFunctions →
      ∃ m tr, lambda_handler w ev = .ok (tr, build_response (.errorBody m) 500)
        ∧ CEffect.sendRawTx ∉ tr := by
  intro w ev p f hap hargs hfn hfne hnabi
  obtain ⟨v, hv⟩ := Option.isSome_iff_exists.mp hargs
  unfold lambda_handler
  simp only [hap, hv, hfn, Option.getD_some, hfne, Bool.false_eq_true, if_false]
  unfold tryBlock
  cases hacc : w.accountOf w.oracleKey with
  | error e => exact ⟨e, [], by simp [hacc]⟩
  | ok addr =>
    cases hn : w.nonceOf addr with
    | error e => exact ⟨e, [.getNonce], by simp [hacc, hn]⟩
    | ok nonce =>
      refine ⟨"The function " ++ f ++ " was not found in this contract abi", [.getNonce], ?_⟩
      simp [hacc, hn, hnabi]

open SmartContractInteractor in
/-- Witness for unknownFunction_error at a concrete request naming a function
that is not on the ABI. -/
theorem unknownFunction_error_witness :
    ∃ m tr,
      SmartContractInteractor.lambda_handler chainW
          ⟨some "/x", some [⟨"functionName", "bogus"⟩]⟩
        = .ok (tr, build_response (.errorBody m) 500)
      ∧ CEffect.sendRawTx ∉ tr :=
  unknownFunction_error chainW ⟨some "/x", some [⟨"functionName", "bogus"⟩]⟩ "/x" "bogus"
    (by decide) (by decide) (by decide) (by decide) (by decide)

namespace ExternalAPIFetcher

theorem fetchAndFormat_shape (w : World) (u s f t : String) (pre : List Effect) :
    (∃ l, (fetchAndFormat w u s f t pre).2 = ⟨200, .matchList l⟩)
    ∨ (∃ m, (fetchAndFormat w u s f t pre).2.body = .errorMsg m) := by
  unfold fetchAndFormat
  dsimp only
  split
  · right; exact ⟨_, rfl⟩
  · right; exact ⟨_, rfl⟩
  · split
    · right; exact ⟨_, rfl⟩
    · left; exact ⟨_, rfl⟩

theorem mqh_result_shape (w : World) (cur : Date) (ev : List (String × String)) :
    (∃ l, (lambda_handler w cur ev).2 = ⟨200, .matchList l⟩)
    ∨ (∃ m, (lambda_handler w cur ev).2.body = .errorMsg m) := by
  unfold lambda_handler
  dsimp only
  split
  · right; exact ⟨_, rfl⟩
  · split
    · right; exact ⟨_, rfl⟩
    · split
      · left; exact ⟨_, rfl⟩
      · split
        · split
          · split
            · right; exact ⟨_, rfl⟩
            · right; exact ⟨_, rfl⟩
            · exact fetchAndFormat_shape w _ _ _ _ _
          · exact fetchAndFormat_shape w _ _ _ _ _
        · exact fetchAndFormat_shape w _ _ _ _ _

end ExternalAPIFetcher

namespace ChatRelay

theorem step3_ok (w : TgWorld) (hapol : exceptOk w.postApologyResult = true)
    (hrep : exceptOk w.postReplyResult = true) :
    ∃ tr r, step3 w = .ok (tr, r) := by
  unfold step3
  cases hag : w.agentResult with
  | error e =>
    try simp only [hag]
    cases hap : w.postApologyResult with
    | error e2 => rw [hap] at hapol; exact Bool.noConfusion hapol
    | ok u => exact ⟨_, _, rfl⟩
  | ok chunks =>
    try simp only [hag]
    cases hasm : assembleChunks chunks with
    | error e => exact ⟨_, _, rfl⟩
    | ok text =>
      dsimp only
      by_cases hte : text.isEmpty
      · rw [if_pos hte]; exact ⟨_, _, rfl⟩
      · rw [if_neg hte]
        cases hrp : w.postReplyResult with
        | error e2 => rw [hrp] at hrep; exact Bool.noConfusion hrep
        | ok u => exact ⟨_, _, rfl⟩

theorem step2_ok (w : TgWorld) (mkvs : List (String × PyJson.JVal))
    (hchat : okObjField mkvs "chat" = true) (hfrom : okObjField mkvs "from" = true)
    (hnot : exceptOk w.postNoticeResult = true)
    (hapol : exceptOk w.postApologyResult = true)
    (hrep : exceptOk w.postReplyResult = true) :
    ∃ tr r, step2 w (.obj mkvs) = .ok (tr, r) := by
  unfold okObjField at hchat hfrom
  unfold step2
  cases hc : PyJson.objGet? mkvs "chat" with
  | none => (try simp only [hc]); exact ⟨_, _, rfl⟩
  | some cv =>
    rw [hc] at hchat
    try simp only [hc]
    cases cv with
    | obj ckvs =>
      cases hid : PyJson.objGet? ckvs "id" with
      | none => (try simp only [hid]); exact ⟨_, _, rfl⟩
      | some idv =>
        try simp only [hid]
        cases hfr : PyJson.objGet? mkvs "from" with
        | none => (try simp only [hfr]); exact ⟨_, _, rfl⟩
        | some fv =>
          rw [hfr] at hfrom
          try simp only [hfr]
          cases fv with
          | obj fkvs =>
            cases hfid : PyJson.objGet? fkvs "id" with
            | none => (try simp only [hfid]); exact ⟨_, _, rfl⟩
            | some fidv =>
              try simp only [hfid]
              try dsimp only
              by_cases htxt : PyJson.truthy ((PyJson.objGet? mkvs "text").getD (.str ""))
              · simp only [htxt, Bool.not_true, Bool.false_eq_true, if_false]
                exact step3_ok w hapol hrep
              · rw [Bool.not_eq_true] at htxt
                simp only [htxt, Bool.not_false, if_true]
                cases hnp : w.postNoticeResult with
                | error e2 => rw [hnp] at hnot; exact Bool.noConfusion hnot
                | ok u => exact ⟨_, _, rfl⟩
          | null => exact Bool.noConfusion hfrom
          | boolean b => exact Bool.noConfusion hfrom
          | num n => exact Bool.noConfusion hfrom
          | str s2 => exact Bool.noConfusion hfrom
          | arr xs => exact Bool.noConfusion hfrom
    | null => exact Bool.noConfusion hchat
    | boolean b => exact Bool.noConfusion hchat
    | num n => exact Bool.noConfusion hchat
    | str s2 => exact Bool.noConfusion hchat
    | arr xs => exact Bool.noConfusion hchat

theorem relay_ok (w : TgWorld) (ev : TgEvent)
    (hsafe : ∀ v, PyJson.loads (ev.body.getD "\x7b\x7d") = some v → updateSafe v = true)
    (hnot : exceptOk w.postNoticeResult = true)
    (hapol : exceptOk w.postApologyResult = true)
    (hrep : exceptOk w.postReplyResult = true) :
    ∃ tr r, lambda_handler w ev = .ok (tr, r) := by
  unfold lambda_handler
  cases hl : PyJson.loads (ev.body.getD "\x7b\x7d") with
  | none => (try simp only [hl]); exact ⟨_, _, rfl⟩
  | some v =>
    have hs := hsafe v hl
    try simp only [hl]
    cases v with
    | obj bodyKvs =>
      unfold updateSafe at hs
      dsimp only at hs ⊢
      by_cases hm : PyJson.truthy ((PyJson.objGet? bodyKvs "message").getD .null)
      · simp only [hm, Bool.not_true, Bool.false_or] at hs
        simp only [hm, Bool.not_true, Bool.false_eq_true, if_false]
        cases hmsg : (PyJson.objGet? bodyKvs "message").getD .null with
        | obj mkvs =>
          rw [hmsg] at hs
          simp only [Bool.and_eq_true] at hs
          exact step2_ok w mkvs hs.1 hs.2 hnot hapol hrep
        | null => rw [hmsg] at hs; exact Bool.noConfusion hs
        | boolean b => rw [hmsg] at hs; exact Bool.noConfusion hs
        | num n => rw [hmsg] at hs; exact Bool.noConfusion hs
        | str s2 => rw [hmsg] at hs; exact Bool.noConfusion hs
        | arr xs => rw [hmsg] at hs; exact Bool.noConfusion hs
      · rw [Bool.not_eq_true] at hm
        simp only [hm, Bool.not_false, if_true]
        exact ⟨_, _, rfl⟩
    | null => exact Bool.noConfusion hs
    | boolean b => exact Bool.noConfusion hs
    | num n => exact Bool.noConfusion hs
    | str s2 => exact Bool.noConfusion hs
    | arr xs => exact Bool.noConfusion hs

end ChatRelay

namespace SmartContractInteractor

theorem handler_ok_of_wellformed (w : ChainWorld) (ev : Event) (p : String)
    (hap : ev.apiPath = some p)
    (hargs : (PyJson.loads ((paramsGet (ev.parameters.getD []) "arguments").getD "[]")).isSome) :
    ∃ tr resp, lambda_handler w ev = .ok (tr, resp) := by
  obtain ⟨v, hv⟩ := Option.isSome_iff_exists.mp hargs
  unfold lambda_handler
  simp only [hap, hv]
  by_cases hfn : ((paramsGet (ev.parameters.getD []) "functionName").getD "").isEmpty
  · rw [if_pos hfn]
    exact ⟨_, _, rfl⟩
  · rw [if_neg hfn]
    exact ⟨_, _, rfl⟩

end SmartContractInteractor

/-- Counterexample to claim C3: exceptions do escape two of the handlers.
ContractInvoker raises an uncaught KeyError on an event without apiPath (and
an uncaught JSONDecodeError on a non-JSON arguments string, see claim C8),
and ChatRelay raises an uncaught TypeError when the message field is a string
rather than an object. -/
theorem topLevelCatch_cex :
    SmartContractInteractor.lambda_handler SmartContractInteractor.chainW ⟨none, some []⟩
      = .error (.keyError "apiPath")
    ∧ ChatRelay.lambda_handler ChatRelay.tgW ⟨some "\x7b\"message\": \"hi\"\x7d"⟩
      = .error .typeError := by
  decide

/-- Claim C3 amended: MatchQueryHandler always terminates with a structured
response (a 200 carrying a match list, or a body carrying an error message);
ContractInvoker returns a structured response whenever the event carries
apiPath and its arguments parameter parses as JSON, while a missing apiPath
escapes as an uncaught KeyError; ChatRelay returns a structured response
whenever the parsed update is shape-safe (message, chat and from are objects
where required) and the chat-platform posts succeed. -/
theorem topLevelCatch_amended :
    (∀ (w : ExternalAPIFetcher.World) (cur : ExternalAPIFetcher.Date)
        (ev : List (String × String)),
      (∃ l, (ExternalAPIFetcher.lambda_handler w cur ev).2 = ⟨200, .matchList l⟩)
      ∨ (∃ m, (ExternalAPIFetcher.lambda_handler w cur ev).2.body = .errorMsg m))
    ∧ (∀ (w : SmartContractInteractor.ChainWorld) (ev : SmartContractInteractor.Event)
        (p : String),
        ev.apiPath = some p →
        (PyJson.loads ((SmartContractInteractor.paramsGet (ev.parameters.getD [])
          "arguments").getD "[]")).isSome →
        ∃ tr resp, SmartContractInteractor.lambda_handler w ev = .ok (tr, resp))
    ∧ (∀ (w : SmartContractInteractor.ChainWorld) (ev : SmartContractInteractor.Event),
        ev.apiPath = none →
        SmartContractInteractor.lambda_handler w ev = .error (.keyError "apiPath"))
    ∧ (∀ (w : ChatRelay.TgWorld) (ev : ChatRelay.TgEvent),
        (∀ v, PyJson.loads (ev.body.getD "\x7b\x7d") = some v → ChatRelay.updateSafe v = true) →
        ChatRelay.exceptOk w.postNoticeResult = true →
        ChatRelay.exceptOk w.postApologyResult = true →
        ChatRelay.exceptOk w.postReplyResult = true →
        ∃ tr r, ChatRelay.lambda_handler w ev = .ok (tr, r)) := by
  refine ⟨ExternalAPIFetcher.mqh_result_shape, SmartContractInteractor.handler_ok_of_wellformed,
    ?_, ChatRelay.relay_ok⟩
  intro w ev h
  unfold SmartContractInteractor.lambda_handler
  simp only [h]

/-- Witness for topLevelCatch_amended: concrete no-escape runs of
ContractInvoker and ChatRelay, and the apiPath KeyError at a concrete event. -/
theorem topLevelCatch_amended_witness :
    (∃ tr resp, SmartContractInteractor.lambda_handler SmartContractInteractor.chainW
        ⟨some "/x", some [⟨"functionName", "resolveMarket"⟩, ⟨"arguments", "[3]"⟩]⟩
      = .ok (tr, resp))
    ∧ (∃ tr r, ChatRelay.lambda_handler ChatRelay.tgW
        ⟨some "\x7b\"message\": \x7b\"chat\": \x7b\"id\": 1\x7d, \"from\": \x7b\"id\": 2\x7d, \"text\": \"hi\"\x7d\x7d"⟩
      = .ok (tr, r)) :=
  ⟨topLevelCatch_amended.2.1 SmartContractInteractor.chainW
     ⟨some "/x", some [⟨"functionName", "resolveMarket"⟩, ⟨"arguments", "[3]"⟩]⟩ "/x"
     (by decide) (by decide),
   topLevelCatch_amended.2.2.2 ChatRelay.tgW
     ⟨some "\x7b\"message\": \x7b\"chat\": \x7b\"id\": 1\x7d, \"from\": \x7b\"id\": 2\x7d, \"text\": \"hi\"\x7d\x7d"⟩
     (by decide) (by decide) (by decide) (by decide)⟩
